import Mathlib

/-!
Shallow embedding of `src/services/geminiService.ts` (module `geminiService`).

The module exports two async operations, `getDatasetInsights` and
`getVariableSuggestions`, which build a prompt string from their inputs,
invoke a remote text-generation service, and post-process the reply.

Modelling choices:
* JSON values are the inductive `Json`; JavaScript numbers are modelled as
  integers (`Int`) — every value appearing in the verified properties is an
  integer, a string, a boolean, an array or an object.
* The remote service (`ai.models.generateContent`) is an oracle parameter
  `remote : String → Except String String` mapping the outbound prompt to
  either the reply text (`Except.ok`) or a raised transport error whose
  `.message` is the carried string (`Except.error`).
* A JavaScript exception is modelled as `Except.error m` where `m` is the
  `Error.message` of the thrown value (every throw in the source and in the
  model constructs an `Error` from a message string).
* Each operation also returns the list of prompts it actually sent, so that
  "performs zero network calls" is the statement that this list is `[]`.
* `JSON.stringify(v, null, 2)` and `JSON.parse` are modelled by `jsonStringify`
  and `jsonParse` below, following the JSON text format (integer numerals).
* `process.env.API_KEY` is a parameter `apiKey : Option String`; the source
  guard `if (!API_KEY)` is `apiKeyFalsy apiKey` (absent or empty string).
-/

namespace GeminiService

/-- A JSON value.  `DataRow` values and the opaque `DescriptiveStats` object
from `../types` are serialized by this module but never inspected, so both are
plain `Json` values here.  Numbers are modelled as integers. -/
inductive Json where
  | null
  | bool (b : Bool)
  | num (n : Int)
  | str (s : String)
  | arr (elems : List Json)
  | obj (fields : List (String × Json))
deriving Repr

/-- Modelled from the spec: a sample row is a record mapping column names to
scalar values; this module only ever serializes it, so it is an opaque `Json`
value (an object in practice). -/
abbrev DataRow := Json

/-- Modelled from the spec: the pre-computed descriptive-statistics object is
opaque to this module and only serialized. -/
abbrev DescriptiveStats := Json

/-- Escape one character as inside a JSON string literal
(`JSON.stringify` escaping: quote, backslash, and control characters). -/
def escapeChar (c : Char) : String :=
  if c = '"' then "\\\""
  else if c = '\\' then "\\\\"
  else if c = '\n' then "\\n"
  else if c = '\t' then "\\t"
  else if c = '\r' then "\\r"
  else if c.toNat < 32 then
    "\\u00" ++ String.mk [Nat.digitChar (c.toNat / 16), Nat.digitChar (c.toNat % 16)]
  else String.mk [c]

/-- A JSON string literal: quotes around the escaped characters. -/
def quoteStr (s : String) : String :=
  "\"" ++ String.join (s.data.map escapeChar) ++ "\""

mutual

/-- `JSON.stringify(v, null, 2)` at current indentation `ind`
(the indentation of the line on which `v`'s closing bracket sits). -/
def stringifyVal (ind : String) : Json → String
  | .null => "null"
  | .bool true => "true"
  | .bool false => "false"
  | .num n => toString n
  | .str s => quoteStr s
  | .arr [] => "[]"
  | .arr (x :: xs) =>
    "[\n" ++ stringifyItems (ind ++ "  ") (x :: xs) ++ "\n" ++ ind ++ "]"
  | .obj [] => "\x7b\x7d"
  | .obj (f :: fs) =>
    "\x7b\n" ++ stringifyFields (ind ++ "  ") (f :: fs) ++ "\n" ++ ind ++ "\x7d"
termination_by v => sizeOf v

/-- The comma-and-newline separated, indented items of an array. -/
def stringifyItems (ind : String) : List Json → String
  | [] => ""
  | [x] => ind ++ stringifyVal ind x
  | x :: y :: ys => ind ++ stringifyVal ind x ++ ",\n" ++ stringifyItems ind (y :: ys)
termination_by xs => sizeOf xs

/-- The comma-and-newline separated, indented `"key": value` fields of an
object. -/
def stringifyFields (ind : String) : List (String × Json) → String
  | [] => ""
  | [(k, v)] => ind ++ quoteStr k ++ ": " ++ stringifyVal ind v
  | (k, v) :: g :: gs =>
    ind ++ quoteStr k ++ ": " ++ stringifyVal ind v ++ ",\n" ++
      stringifyFields ind (g :: gs)
termination_by fs => sizeOf fs

end

/-- `JSON.stringify(v, null, 2)`. -/
def jsonStringify (v : Json) : String := stringifyVal "" v

/-- Drop leading JSON whitespace (space, tab, newline, carriage return). -/
def skipWs : List Char → List Char
  | c :: cs =>
    if c = ' ' ∨ c = '\t' ∨ c = '\n' ∨ c = '\r' then skipWs cs else c :: cs
  | [] => []

/-- Require the given literal characters at the head of the input. -/
def expectChars (lit : List Char) (cs : List Char) : Except String (List Char) :=
  match lit, cs with
  | [], rest => .ok rest
  | _ :: _, [] => .error "Unexpected end of JSON input"
  | e :: es, c :: rest =>
    if c = e then expectChars es rest
    else .error ("Unexpected token " ++ String.mk [c] ++ " in JSON")

/-- Take the maximal run of decimal digits from the head of the input. -/
def takeDigits : List Char → List Char × List Char
  | c :: cs =>
    if c.isDigit then
      let (ds, rest) := takeDigits cs
      (c :: ds, rest)
    else ([], c :: cs)
  | [] => ([], [])

/-- Decimal digits to the natural number they denote. -/
def digitsToNat (ds : List Char) : Nat :=
  ds.foldl (fun a c => a * 10 + (c.toNat - 48)) 0

/-- Parse the body of a JSON string literal (the opening quote already
consumed); returns the decoded string and the input after the closing
quote. -/
def parseStringBody : Nat → List Char → Except String (String × List Char)
  | 0, _ => .error "JSON parser fuel exhausted"
  | _ + 1, [] => .error "Unterminated string in JSON"
  | fuel + 1, c :: cs =>
    if c = '"' then .ok ("", cs)
    else if c = '\\' then
      match cs with
      | [] => .error "Unterminated string in JSON"
      | e :: cs' =>
        let decoded : Except String Char :=
          if e = '"' then .ok '"'
          else if e = '\\' then .ok '\\'
          else if e = '/' then .ok '/'
          else if e = 'b' then .ok '\x08'
          else if e = 'f' then .ok '\x0c'
          else if e = 'n' then .ok '\n'
          else if e = 'r' then .ok '\r'
          else if e = 't' then .ok '\t'
          else .error "Bad escaped character in JSON"
        match decoded with
        | .error m => .error m
        | .ok d =>
          match parseStringBody fuel cs' with
          | .error m => .error m
          | .ok (s, rest) => .ok (String.mk (d :: s.data), rest)
    else
      match parseStringBody fuel cs with
      | .error m => .error m
      | .ok (s, rest) => .ok (String.mk (c :: s.data), rest)

/-- Parse a JSON number (integer form: optional minus then digits).
Fractional and exponent forms are outside this model. -/
def parseNumber (cs : List Char) : Except String (Json × List Char) :=
  match cs with
  | '-' :: rest =>
    match takeDigits rest with
    | ([], _) => .error "Unexpected token - in JSON"
    | (ds, rest') => .ok (.num (-(digitsToNat ds : Int)), rest')
  | _ =>
    match takeDigits cs with
    | ([], _) => .error "Unexpected token in JSON number"
    | (ds, rest') => .ok (.num (digitsToNat ds : Int), rest')

/-- JavaScript `String.prototype.trim()`: strip whitespace from both ends
(whitespace modelled as space, tab, newline, carriage return). -/
def jsTrim (s : String) : String :=
  String.mk ((skipWs ((skipWs s.data).reverse)).reverse)

/-- Insert or overwrite a key in a JavaScript object (later duplicate keys in a
JSON text overwrite the earlier value, keeping the first position). -/
def setField : List (String × Json) → String → Json → List (String × Json)
  | [], k, v => [(k, v)]
  | (k', v') :: fs, k, v =>
    if k' = k then (k, v) :: fs else (k', v') :: setField fs k v

mutual

/-- Parse one JSON value from the input (leading whitespace allowed);
returns the value and the remaining input.  `fuel` bounds recursion. -/
def parseVal : Nat → List Char → Except String (Json × List Char)
  | 0, _ => .error "JSON parser fuel exhausted"
  | fuel + 1, cs =>
    match skipWs cs with
    | [] => .error "Unexpected end of JSON input"
    | c :: rest =>
      if c = 'n' then
        match expectChars ['u', 'l', 'l'] rest with
        | .error m => .error m
        | .ok rest' => .ok (.null, rest')
      else if c = 't' then
        match expectChars ['r', 'u', 'e'] rest with
        | .error m => .error m
        | .ok rest' => .ok (.bool true, rest')
      else if c = 'f' then
        match expectChars ['a', 'l', 's', 'e'] rest with
        | .error m => .error m
        | .ok rest' => .ok (.bool false, rest')
      else if c = '"' then
        match parseStringBody fuel rest with
        | .error m => .error m
        | .ok (s, rest') => .ok (.str s, rest')
      else if c = '[' then
        match skipWs rest with
        | ']' :: rest' => .ok (.arr [], rest')
        | _ => parseElems fuel rest
      else if c = '\x7b' then
        match skipWs rest with
        | '\x7d' :: rest' => .ok (.obj [], rest')
        | _ => parseFields fuel rest []
      else if c = '-' ∨ c.isDigit then parseNumber (c :: rest)
      else .error ("Unexpected token " ++ String.mk [c] ++ " in JSON")

/-- Parse the elements of a non-empty JSON array (opening bracket already
consumed); returns the array value and the input after the closing bracket. -/
def parseElems : Nat → List Char → Except String (Json × List Char)
  | 0, _ => .error "JSON parser fuel exhausted"
  | fuel + 1, cs =>
    match parseVal fuel cs with
    | .error m => .error m
    | .ok (v, rest) =>
      match skipWs rest with
      | ',' :: rest' =>
        match parseElems fuel rest' with
        | .error m => .error m
        | .ok (.arr vs, rest'') => .ok (.arr (v :: vs), rest'')
        | .ok _ => .error "JSON parser internal error"
      | ']' :: rest' => .ok (.arr [v], rest')
      | _ => .error "Expected , or ] after JSON array element"

/-- Parse the fields of a non-empty JSON object (opening brace already
consumed), accumulating into `acc` with JavaScript duplicate-key semantics;
returns the object value and the input after the closing brace. -/
def parseFields : Nat → List Char → List (String × Json) →
    Except String (Json × List Char)
  | 0, _, _ => .error "JSON parser fuel exhausted"
  | fuel + 1, cs, acc =>
    match skipWs cs with
    | '"' :: rest =>
      match parseStringBody fuel rest with
      | .error m => .error m
      | .ok (k, rest') =>
        match skipWs rest' with
        | ':' :: rest'' =>
          match parseVal fuel rest'' with
          | .error m => .error m
          | .ok (v, rest3) =>
            match skipWs rest3 with
            | ',' :: rest4 => parseFields fuel rest4 (setField acc k v)
            | '\x7d' :: rest4 => .ok (.obj (setField acc k v), rest4)
            | _ => .error "Expected , or closing brace after JSON object field"
        | _ => .error "Expected : after JSON object key"
    | _ => .error "Expected string key in JSON object"

end

/-- `JSON.parse`: parse a complete JSON text (integer numerals), requiring
only whitespace after the value.  Errors carry the parse-error message. -/
def jsonParse (s : String) : Except String Json :=
  match parseVal (s.length + 1) s.data with
  | .error m => .error m
  | .ok (v, rest) =>
    match skipWs rest with
    | [] => .ok v
    | c :: _ =>
      .error ("Unexpected token " ++ String.mk [c] ++ " after JSON value")

/-- JavaScript truthiness of `v.key`, where an absent field reads as
`undefined` (`none` here): `undefined`, `null`, `false`, `0` and `""` are
falsy; every other value is truthy. -/
def truthy : Option Json → Bool
  | none => false
  | some .null => false
  | some (.bool b) => b
  | some (.num n) => n != 0
  | some (.str s) => s != ""
  | some (.arr _) => true
  | some (.obj _) => true

/-- `Array.isArray(x)` on an optional field value. -/
def isArrayField : Option Json → Bool
  | some (.arr _) => true
  | _ => false

/-- JavaScript property read `v[k]`: a field of an object (or `undefined` when
absent), `undefined` on non-null primitives and arrays, and a thrown
`TypeError` on `null`. -/
def Json.getField : Json → String → Except String (Option Json)
  | .obj fs, k => .ok ((fs.find? (fun f => f.1 = k)).map (fun f => f.2))
  | .null, k => .error ("Cannot read properties of null (reading " ++ k ++ ")")
  | _, _ => .ok none

/-- The source guard `if (!API_KEY)`: `process.env.API_KEY` is falsy when the
variable is unset (`undefined`) or set to the empty string. -/
def apiKeyFalsy : Option String → Bool
  | none => true
  | some s => s == ""

/-- The insights template up to `${headers.join(', ')}`. -/
def insT1 : String :=
  "\n    Eres un analista de datos experto. Tu tarea es proporcionar un análisis conciso y útil de un conjunto de datos para la predicción de ventas.\n\n    Aquí está la información del conjunto de datos:\n    1.  **Columnas**: "

/-- The insights template between the headers and `${statsString}`. -/
def insT2 : String :=
  "\n    2.  **Estadísticas Descriptivas (para columnas numéricas)**:\n        ```json\n        "

/-- The insights template between `${statsString}` and `${sampleDataString}`. -/
def insT3 : String :=
  "\n        ```\n    3.  **Primeras 5 filas de datos**:\n        ```json\n        "

/-- The insights template after `${sampleDataString}`. -/
def insT4 : String :=
  "\n        ```\n\n    Por favor, proporciona un análisis que incluya:\n    -   Una breve descripción general de los datos.\n    -   Posibles relaciones o patrones interesantes que observes entre las variables.\n    -   Recomendaciones sobre qué variables podrían ser buenos predictores para un modelo de regresión.\n    -   Advertencias sobre posibles problemas como multicolinealidad, valores atípicos (outliers) o la necesidad de transformar alguna variable.\n\n    Formatea tu respuesta en Markdown para una fácil lectura. Sé claro, conciso y orientado a la acción.\n    "

/-- The prompt built by `getDatasetInsights`: the fixed template with
`headers.join(', ')`, `JSON.stringify(stats, null, 2)` and
`JSON.stringify(sampleData, null, 2)` interpolated. -/
def insightsPrompt (headers : List String) (stats : DescriptiveStats)
    (sampleData : List DataRow) : String :=
  insT1 ++ String.intercalate ", " headers ++ insT2 ++ jsonStringify stats ++
    insT3 ++ jsonStringify (Json.arr sampleData) ++ insT4

/-- The suggestions template up to `${headers.join(', ')}`. -/
def sugT1 : String :=
  "\n    Analiza los siguientes encabezados de columnas y datos de muestra de un conjunto de datos.\n    Tu tarea es actuar como un científico de datos y sugerir la mejor variable dependiente (objetivo) y las mejores variables independientes (predictores) para construir un modelo de predicción de ventas.\n\n    La variable dependiente debe ser la que probablemente represente las ventas (ej. \x27ventas\x27, \x27ingresos\x27, \x27unidades_vendidas\x27).\n    Las variables independientes deben ser aquellas que lógicamente podrían influir en la variable de ventas.\n\n    Encabezados: "

/-- The suggestions template between the headers and `${sampleDataString}`. -/
def sugT2 : String :=
  "\n\n    Primeras 5 filas de datos de muestra:\n    ```json\n    "

/-- The suggestions template after `${sampleDataString}`. -/
def sugT3 : String :=
  "\n    ```\n\n    Devuelve tu sugerencia únicamente en formato JSON.\n    "

/-- The prompt built by `getVariableSuggestions`: the source first computes
`sampleDataString = JSON.stringify(sampleData.slice(0, 5), null, 2)` — the
truncation to the first 5 rows happens here, inside the operation — then
interpolates it with `headers.join(', ')` into the fixed template. -/
def suggestionsPrompt (headers : List String) (sampleData : List DataRow) :
    String :=
  sugT1 ++ String.intercalate ", " headers ++ sugT2 ++
    jsonStringify (Json.arr (sampleData.take 5)) ++ sugT3

/-- `getDatasetInsights(headers, stats, sampleData)`.

The result is the returned string paired with the list of prompts actually
sent over the network.  The return type records that this operation never
raises: every path produces a `String`.  On `!API_KEY` it returns the fixed
Spanish error string without calling `remote`; on a transport error it
returns the fixed error text with the error message interpolated. -/
def getDatasetInsights (apiKey : Option String) (headers : List String)
    (stats : DescriptiveStats) (sampleData : List DataRow)
    (remote : String → Except String String) : String × List String :=
  if apiKeyFalsy apiKey then
    ("Error: La clave API de Gemini no está configurada. Por favor, configúrela en las variables de entorno.",
     [])
  else
    let prompt := insightsPrompt headers stats sampleData
    match remote prompt with
    | .ok text => (text, [prompt])
    | .error m =>
      ("Error al contactar la API de Gemini. Por favor, revisa la consola para más detalles. Detalles: "
         ++ m,
       [prompt])

/-- The error thrown by `getVariableSuggestions` when `!API_KEY`. -/
def missingKeyMsg : String := "La clave API de Gemini no está configurada."

/-- The message of the shape-validation error
(`La respuesta de la IA no tiene el formato esperado.`). -/
def shapeErrorMsg : String :=
  "La respuesta de la IA no tiene el formato esperado."

/-- The outer catch of `getVariableSuggestions` rethrows every caught error
with this message (the original message appended after the fixed text). -/
def wrapSuggestionsError (m : String) : String :=
  "Error al obtener sugerencias de la IA. Detalles: " ++ m

/-- The response processing of `getVariableSuggestions`, inside its `try`:
trim the reply text, `JSON.parse` it, read `suggestions.dependentVar` and
`suggestions.independentVars`, throw the shape error unless the former is
truthy and the latter an array, and otherwise return `suggestions` itself
(the whole parsed value). -/
def processResponse (text : String) : Except String Json :=
  match jsonParse (jsTrim text) with
  | .error m => .error m
  | .ok suggestions =>
    match suggestions.getField "dependentVar" with
    | .error m => .error m
    | .ok dep =>
      if !truthy dep then .error shapeErrorMsg
      else
        match suggestions.getField "independentVars" with
        | .error m => .error m
        | .ok ind =>
          if !isArrayField ind then .error shapeErrorMsg
          else .ok suggestions

/-- `getVariableSuggestions(headers, sampleData)`.

The result is the `Except` outcome (`.error m` models a raised `Error` with
message `m`) paired with the list of prompts actually sent.  On `!API_KEY`
it throws the missing-key error before the `try`, hence unwrapped and with
no network call; inside the `try`, any error — transport, JSON parse,
property read, or shape validation — is caught and rethrown wrapped by
`wrapSuggestionsError`. -/
def getVariableSuggestions (apiKey : Option String) (headers : List String)
    (sampleData : List DataRow) (remote : String → Except String String) :
    Except String Json × List String :=
  if apiKeyFalsy apiKey then
    (.error missingKeyMsg, [])
  else
    let prompt := suggestionsPrompt headers sampleData
    match remote prompt with
    | .error m => (.error (wrapSuggestionsError m), [prompt])
    | .ok text =>
      match processResponse text with
      | .ok suggestions => (.ok suggestions, [prompt])
      | .error m => (.error (wrapSuggestionsError m), [prompt])

/-- The keys of a JSON object value (in order), `[]` on non-objects. -/
def jsonKeys : Json → List String
  | .obj fs => fs.map (fun f => f.1)
  | _ => []

/-- `p` occurs contiguously inside `s`. -/
def IsSubstringOf (p s : String) : Prop := List.IsInfix p.data s.data

theorem isSubstringOf_refl (p : String) : IsSubstringOf p p :=
  ⟨[], [], by simp⟩

theorem isSubstringOf_append (a p b : String) : IsSubstringOf p (a ++ p ++ b) := by
  unfold IsSubstringOf
  rw [String.data_append, String.data_append]
  exact List.infix_append _ _ _

theorem isSubstringOf_appendLeft (p s t : String) (h : IsSubstringOf p s) :
    IsSubstringOf p (s ++ t) := by
  unfold IsSubstringOf at *
  rw [String.data_append]
  exact h.trans ⟨[], t.data, by simp⟩

theorem isSubstringOf_appendRight (p s t : String) (h : IsSubstringOf p t) :
    IsSubstringOf p (s ++ t) := by
  unfold IsSubstringOf at *
  rw [String.data_append]
  exact h.trans ⟨s.data, [], by simp⟩

/-- **C1.** For every input (headers, stats, sampleData) and every remote
service, if no credential is configured (`API_KEY` absent, i.e. `none`),
`getDatasetInsights` returns — it cannot raise, its result type is `String` —
a human-readable error string containing the error marker `"Error:"`, and
performs zero network calls (the list of sent prompts is empty). -/
theorem claim1_insights_no_key_error_string_no_calls (headers : List String)
    (stats : DescriptiveStats) (sampleData : List DataRow)
    (remote : String → Except String String) :
    (getDatasetInsights none headers stats sampleData remote).2 = [] ∧
    IsSubstringOf "Error:"
      (getDatasetInsights none headers stats sampleData remote).1 := by
  constructor
  · rfl
  · show IsSubstringOf "Error:"
      "Error: La clave API de Gemini no está configurada. Por favor, configúrela en las variables de entorno."
    have h :
        ("" : String) ++ "Error:" ++
            " La clave API de Gemini no está configurada. Por favor, configúrela en las variables de entorno." =
          "Error: La clave API de Gemini no está configurada. Por favor, configúrela en las variables de entorno." := by
      decide
    exact h ▸ isSubstringOf_append "" "Error:"
      " La clave API de Gemini no está configurada. Por favor, configúrela en las variables de entorno."

/-- **C2.** For every input (headers, sampleData) and every remote service, if
no credential is configured (`API_KEY` absent), `getVariableSuggestions`
raises (`Except.error`, the error channel — not a returned sentinel value) a
domain error whose message indicates the missing credential
(`missingKeyMsg`), and performs zero network calls. -/
theorem claim2_suggestions_no_key_raises_no_calls (headers : List String)
    (sampleData : List DataRow) (remote : String → Except String String) :
    getVariableSuggestions none headers sampleData remote =
      (Except.error missingKeyMsg, []) := rfl

/-- **C3.** For every input and every remote call that raises a
transport/service error with message `m`, `getDatasetInsights` does not raise
(its result type is `String`, every path returns): it returns, as its
ordinary success value, the fixed error text with the underlying message `m`
appended — a string containing both the fixed error prefix and `m`.
(The credential must be configured for the remote call to happen at all.) -/
theorem claim3_insights_transport_error_returned_as_text (apiKey : Option String)
    (headers : List String) (stats : DescriptiveStats) (sampleData : List DataRow)
    (remote : String → Except String String) (m : String)
    (hk : apiKeyFalsy apiKey = false)
    (hr : remote (insightsPrompt headers stats sampleData) = .error m) :
    (getDatasetInsights apiKey headers stats sampleData remote).1 =
      "Error al contactar la API de Gemini. Por favor, revisa la consola para más detalles. Detalles: "
        ++ m ∧
    IsSubstringOf "Error al contactar la API de Gemini"
      (getDatasetInsights apiKey headers stats sampleData remote).1 ∧
    IsSubstringOf m (getDatasetInsights apiKey headers stats sampleData remote).1 := by
  have h1 : (getDatasetInsights apiKey headers stats sampleData remote).1 =
      "Error al contactar la API de Gemini. Por favor, revisa la consola para más detalles. Detalles: "
        ++ m := by
    unfold getDatasetInsights
    rw [hk]
    simp only [Bool.false_eq_true, if_false, hr]
  refine ⟨h1, ?_, ?_⟩
  · rw [h1]
    apply isSubstringOf_appendLeft
    have h :
        ("" : String) ++ "Error al contactar la API de Gemini" ++
            ". Por favor, revisa la consola para más detalles. Detalles: " =
          "Error al contactar la API de Gemini. Por favor, revisa la consola para más detalles. Detalles: " := by
      decide
    exact h ▸ isSubstringOf_append "" "Error al contactar la API de Gemini"
      ". Por favor, revisa la consola para más detalles. Detalles: "
  · rw [h1]
    exact isSubstringOf_appendRight m _ m (isSubstringOf_refl m)

/-- Witness for **C3**: a configured key and a remote call failing with
message `"boom"`. -/
theorem claim3_witness :
    (getDatasetInsights (some "k") [] Json.null []
        (fun _ => Except.error "boom")).1 =
      "Error al contactar la API de Gemini. Por favor, revisa la consola para más detalles. Detalles: "
        ++ "boom" ∧
    IsSubstringOf "Error al contactar la API de Gemini"
      (getDatasetInsights (some "k") [] Json.null []
          (fun _ => Except.error "boom")).1 ∧
    IsSubstringOf "boom"
      (getDatasetInsights (some "k") [] Json.null []
          (fun _ => Except.error "boom")).1 :=
  claim3_insights_transport_error_returned_as_text (some "k") [] Json.null []
    (fun _ => Except.error "boom") "boom" (by decide) rfl

/-- **C4.** With a configured credential, every run of
`getVariableSuggestions` either succeeds, or raises exactly the single
wrapped domain error: a human-readable text with the original error's
message `m` appended (`wrapSuggestionsError m`, which contains `m`), where
`m` is the message of the error raised inside the `try` — by the network
call (`remote` erring) or by the response processing (JSON parsing, property
read, or shape validation, all inside `processResponse`).  All failure paths
inside the operation's `try` converge to this one raised-error channel. -/
theorem claim4_suggestions_failures_wrapped (apiKey : Option String)
    (headers : List String) (sampleData : List DataRow)
    (remote : String → Except String String)
    (hk : apiKeyFalsy apiKey = false) :
    (∃ j, (getVariableSuggestions apiKey headers sampleData remote).1 =
        .ok j) ∨
    (∃ m, (getVariableSuggestions apiKey headers sampleData remote).1 =
        .error (wrapSuggestionsError m) ∧
      IsSubstringOf m (wrapSuggestionsError m) ∧
      (remote (suggestionsPrompt headers sampleData) = .error m ∨
        ∃ t, remote (suggestionsPrompt headers sampleData) = .ok t ∧
          processResponse t = .error m)) := by
  unfold getVariableSuggestions
  rw [hk]
  simp only [Bool.false_eq_true, if_false]
  cases hrem : remote (suggestionsPrompt headers sampleData) with
  | error m =>
    right
    exact ⟨m, rfl,
      isSubstringOf_appendRight m _ m (isSubstringOf_refl m), Or.inl rfl⟩
  | ok t =>
    cases hp : processResponse t with
    | ok j =>
      left
      refine ⟨j, ?_⟩
      simp only [hp]
    | error m =>
      right
      refine ⟨m, ?_,
        isSubstringOf_appendRight m _ m (isSubstringOf_refl m),
        Or.inr ⟨t, rfl, hp⟩⟩
      simp only [hp]

/-- Witness for **C4**: a configured key and a remote transport error. -/
theorem claim4_witness :
    (∃ j, (getVariableSuggestions (some "k") [] []
        (fun _ => (Except.error "boom" : Except String String))).1 = .ok j) ∨
    (∃ m, (getVariableSuggestions (some "k") [] []
          (fun _ => (Except.error "boom" : Except String String))).1 =
        .error (wrapSuggestionsError m) ∧
      IsSubstringOf m (wrapSuggestionsError m) ∧
      ((Except.error "boom" : Except String String) = Except.error m ∨
        ∃ t, (Except.error "boom" : Except String String) = Except.ok t ∧
          processResponse t = .error m)) :=
  claim4_suggestions_failures_wrapped (some "k") [] []
    (fun _ => (Except.error "boom" : Except String String)) (by decide)

/-- **C5.** If the credential is configured and the remote call returns
exactly the text
`{"dependentVar":"sales","independentVars":["price","ad_spend"]}`, then
`getVariableSuggestions` returns (`.ok`, does not raise) the record with
`dependentVar = "sales"` and `independentVars = ["price", "ad_spend"]`. -/
theorem claim5_suggestions_happy_path (apiKey : Option String)
    (headers : List String) (sampleData : List DataRow)
    (remote : String → Except String String)
    (hk : apiKeyFalsy apiKey = false)
    (hr : remote (suggestionsPrompt headers sampleData) =
      .ok "\x7b\"dependentVar\":\"sales\",\"independentVars\":[\"price\",\"ad_spend\"]\x7d") :
    (getVariableSuggestions apiKey headers sampleData remote).1 =
      .ok (Json.obj [("dependentVar", Json.str "sales"),
        ("independentVars",
          Json.arr [Json.str "price", Json.str "ad_spend"])]) := by
  unfold getVariableSuggestions
  rw [hk]
  simp only [Bool.false_eq_true, if_false, hr]
  rfl

/-- Witness for **C5**: a configured key and a remote service answering the
literal JSON text. -/
theorem claim5_witness :
    (getVariableSuggestions (some "k") [] []
        (fun _ =>
          (Except.ok "\x7b\"dependentVar\":\"sales\",\"independentVars\":[\"price\",\"ad_spend\"]\x7d" :
            Except String String))).1 =
      .ok (Json.obj [("dependentVar", Json.str "sales"),
        ("independentVars",
          Json.arr [Json.str "price", Json.str "ad_spend"])]) :=
  claim5_suggestions_happy_path (some "k") [] []
    (fun _ =>
      (Except.ok "\x7b\"dependentVar\":\"sales\",\"independentVars\":[\"price\",\"ad_spend\"]\x7d" :
        Except String String))
    (by decide) rfl

/-- **C6.** With a configured credential, a remote reply `t` that parses as
JSON to a value `j` on which the two property reads succeed: the run raises
the shape-invalid domain error (`shapeErrorMsg`, rethrown wrapped by the
outer catch) **iff** the `dependentVar` field is absent-or-not-truthy or the
`independentVars` field is absent-or-not-an-array.  Only truthiness of
`dependentVar` and array-ness of `independentVars` are checked — in
particular an empty `independentVars` array passes (the right-hand side is
false for it), and the response `{"independentVars":["price"]}` (missing
`dependentVar`) raises, as the witness shows. -/
theorem claim6_suggestions_shape_validation (apiKey : Option String)
    (headers : List String) (sampleData : List DataRow)
    (remote : String → Except String String) (t : String) (j : Json)
    (dep ind : Option Json)
    (hk : apiKeyFalsy apiKey = false)
    (hr : remote (suggestionsPrompt headers sampleData) = .ok t)
    (hp : jsonParse (jsTrim t) = .ok j)
    (hdep : j.getField "dependentVar" = .ok dep)
    (hind : j.getField "independentVars" = .ok ind) :
    (getVariableSuggestions apiKey headers sampleData remote).1 =
        .error (wrapSuggestionsError shapeErrorMsg) ↔
      (truthy dep = false ∨ isArrayField ind = false) := by
  have hres : (getVariableSuggestions apiKey headers sampleData remote).1 =
      match processResponse t with
      | .ok s => .ok s
      | .error m => .error (wrapSuggestionsError m) := by
    unfold getVariableSuggestions
    rw [hk]
    simp only [Bool.false_eq_true, if_false, hr]
    cases processResponse t <;> rfl
  rw [hres]
  unfold processResponse
  simp only [hp, hdep, hind]
  cases htd : truthy dep with
  | false => simp
  | true =>
    cases hia : isArrayField ind with
    | false => simp
    | true => simp

/-- Witness for **C6**: the response `{"independentVars":["price"]}`
(`dependentVar` missing) makes `getVariableSuggestions` raise the wrapped
shape-invalid error. -/
theorem claim6_witness :
    (getVariableSuggestions (some "k") [] []
          (fun _ => (Except.ok "\x7b\"independentVars\":[\"price\"]\x7d" :
            Except String String))).1 =
        .error (wrapSuggestionsError shapeErrorMsg) ↔
      (truthy none = false ∨
        isArrayField (some (Json.arr [Json.str "price"])) = false) :=
  claim6_suggestions_shape_validation (some "k") [] []
    (fun _ => (Except.ok "\x7b\"independentVars\":[\"price\"]\x7d" :
      Except String String))
    "\x7b\"independentVars\":[\"price\"]\x7d"
    (Json.obj [("independentVars", Json.arr [Json.str "price"])])
    none (some (Json.arr [Json.str "price"]))
    (by decide) rfl rfl rfl rfl

/-- **C7.** With a configured credential, if the remote reply text — after
trimming — is not valid JSON, so that parsing fails with message `m`, then
`getVariableSuggestions` raises, and the raised error's message is the wrap
of `m`, which contains the underlying parse error's message `m` as a
substring.  (The witness instantiates this at the reply `"not json"`.) -/
theorem claim7_suggestions_parse_error_surfaced (apiKey : Option String)
    (headers : List String) (sampleData : List DataRow)
    (remote : String → Except String String) (t m : String)
    (hk : apiKeyFalsy apiKey = false)
    (hr : remote (suggestionsPrompt headers sampleData) = .ok t)
    (hp : jsonParse (jsTrim t) = .error m) :
    (getVariableSuggestions apiKey headers sampleData remote).1 =
      .error (wrapSuggestionsError m) ∧
    IsSubstringOf m (wrapSuggestionsError m) := by
  constructor
  · have hproc : processResponse t = .error m := by
      unfold processResponse
      simp only [hp]
    unfold getVariableSuggestions
    rw [hk]
    simp only [Bool.false_eq_true, if_false, hr, hproc]
  · exact isSubstringOf_appendRight m _ m (isSubstringOf_refl m)

/-- Witness for **C7**: the reply `"not json"` is rejected by the JSON parser
and the parse message is surfaced in the raised error. -/
theorem claim7_witness :
    (getVariableSuggestions (some "k") [] []
        (fun _ => (Except.ok "not json" : Except String String))).1 =
      .error (wrapSuggestionsError "Unexpected token o in JSON") ∧
    IsSubstringOf "Unexpected token o in JSON"
      (wrapSuggestionsError "Unexpected token o in JSON") :=
  claim7_suggestions_parse_error_surfaced (some "k") [] []
    (fun _ => (Except.ok "not json" : Except String String))
    "not json" "Unexpected token o in JSON" (by decide) rfl rfl

/-- **C8.** For every `sampleData` with more than 5 rows: the prompt built by
`getVariableSuggestions` serializes only the first 5 rows — it equals the
prompt built from `sampleData.take 5`, the truncation happening inside the
operation — and carries `JSON.stringify` of those 5 rows as its payload,
while `getDatasetInsights` serializes into its prompt exactly the
`sampleData` it was given, unmodified. -/
theorem claim8_prompt_truncation (headers : List String)
    (stats : DescriptiveStats) (sampleData : List DataRow)
    (_h : 5 < sampleData.length) :
    suggestionsPrompt headers sampleData =
      suggestionsPrompt headers (sampleData.take 5) ∧
    IsSubstringOf (jsonStringify (Json.arr (sampleData.take 5)))
      (suggestionsPrompt headers sampleData) ∧
    IsSubstringOf (jsonStringify (Json.arr sampleData))
      (insightsPrompt headers stats sampleData) := by
  refine ⟨?_, ?_, ?_⟩
  · unfold suggestionsPrompt
    simp [List.take_take]
  · unfold suggestionsPrompt
    exact isSubstringOf_append _ _ _
  · unfold insightsPrompt
    exact isSubstringOf_append _ _ _

/-- Witness for **C8**: six sample rows. -/
theorem claim8_witness :
    5 < (List.replicate 6 (Json.obj [])).length ∧
    (suggestionsPrompt ["a"] (List.replicate 6 (Json.obj [])) =
      suggestionsPrompt ["a"] ((List.replicate 6 (Json.obj [])).take 5) ∧
    IsSubstringOf
      (jsonStringify (Json.arr ((List.replicate 6 (Json.obj [])).take 5)))
      (suggestionsPrompt ["a"] (List.replicate 6 (Json.obj []))) ∧
    IsSubstringOf (jsonStringify (Json.arr (List.replicate 6 (Json.obj []))))
      (insightsPrompt ["a"] Json.null (List.replicate 6 (Json.obj [])))) :=
  ⟨by decide,
    claim8_prompt_truncation ["a"] Json.null (List.replicate 6 (Json.obj []))
      (by decide)⟩

/-- **C9, counterexample.** The claim says the success value consists of the
`dependentVar` and `independentVars` fields *and nothing else*, also for
responses carrying additional fields.  The code instead executes
`return suggestions`, returning the whole parsed object: at the concrete
response `{"dependentVar":"sales","independentVars":[],"extra":1}` the
returned value keeps the third field `extra`, which is not one of the two
claimed fields. -/
theorem claim9_counterexample :
    (getVariableSuggestions (some "k") [] []
        (fun _ =>
          (Except.ok "\x7b\"dependentVar\":\"sales\",\"independentVars\":[],\"extra\":1\x7d" :
            Except String String))).1 =
      Except.ok (Json.obj [("dependentVar", Json.str "sales"),
        ("independentVars", Json.arr []), ("extra", Json.num 1)]) ∧
    jsonKeys (Json.obj [("dependentVar", Json.str "sales"),
        ("independentVars", Json.arr []), ("extra", Json.num 1)]) =
      ["dependentVar", "independentVars", "extra"] ∧
    "extra" ∉ ["dependentVar", "independentVars"] :=
  ⟨rfl, rfl, by decide⟩

/-- **C9, amended.** On every successful run, `getVariableSuggestions`
returns the entire parsed JSON value that passed validation — it contains
the (truthy) `dependentVar` field and the (array) `independentVars` field,
but additional fields present in the remote response are preserved, not
stripped. -/
theorem claim9_amended_returns_whole_parsed_value (apiKey : Option String)
    (headers : List String) (sampleData : List DataRow)
    (remote : String → Except String String) (t : String) (j dep : Json)
    (xs : List Json)
    (hk : apiKeyFalsy apiKey = false)
    (hr : remote (suggestionsPrompt headers sampleData) = .ok t)
    (hp : jsonParse (jsTrim t) = .ok j)
    (hdep : j.getField "dependentVar" = .ok (some dep))
    (htr : truthy (some dep) = true)
    (hind : j.getField "independentVars" = .ok (some (Json.arr xs))) :
    (getVariableSuggestions apiKey headers sampleData remote).1 = .ok j := by
  have hproc : processResponse t = .ok j := by
    unfold processResponse
    simp only [hp, hdep, hind, htr]
    rfl
  unfold getVariableSuggestions
  rw [hk]
  simp only [Bool.false_eq_true, if_false, hr, hproc]

/-- Witness for the amended **C9**: the extra field `extra` survives into the
success value. -/
theorem claim9_amended_witness :
    (getVariableSuggestions (some "k") [] []
        (fun _ =>
          (Except.ok "\x7b\"dependentVar\":\"sales\",\"independentVars\":[],\"extra\":1\x7d" :
            Except String String))).1 =
      .ok (Json.obj [("dependentVar", Json.str "sales"),
        ("independentVars", Json.arr []), ("extra", Json.num 1)]) :=
  claim9_amended_returns_whole_parsed_value (some "k") [] []
    (fun _ =>
      (Except.ok "\x7b\"dependentVar\":\"sales\",\"independentVars\":[],\"extra\":1\x7d" :
        Except String String))
    "\x7b\"dependentVar\":\"sales\",\"independentVars\":[],\"extra\":1\x7d"
    (Json.obj [("dependentVar", Json.str "sales"),
      ("independentVars", Json.arr []), ("extra", Json.num 1)])
    (Json.str "sales") [] (by decide) rfl rfl rfl (by decide) rfl

/-- **C10.** (Implicit claim.)  The shape validation checks only the JavaScript
truthiness of `dependentVar` — not that it is a string — and only
`Array.isArray` of `independentVars` — not its element types: for every
parsed response `j` whose `dependentVar` reads as any truthy value `dep` of
any type and whose `independentVars` reads as an array of any elements `xs`,
the response processing succeeds and returns the value itself (no shape
error is raised).  The witness instantiates `dep` with the number `7` and
`xs` with non-string elements. -/
theorem claim10_validation_only_truthy_and_array (t : String) (j dep : Json)
    (xs : List Json)
    (hp : jsonParse (jsTrim t) = .ok j)
    (hdep : j.getField "dependentVar" = .ok (some dep))
    (htr : truthy (some dep) = true)
    (hind : j.getField "independentVars" = .ok (some (Json.arr xs))) :
    processResponse t = .ok j := by
  unfold processResponse
  simp only [hp, hdep, hind, htr]
  rfl

/-- Witness for **C10**: `dependentVar` is the number `7` (truthy, not a
string) and `independentVars` is the array `[1, {}]` (not strings);
validation passes and the parsed value is returned. -/
theorem claim10_witness :
    processResponse "\x7b\"dependentVar\":7,\"independentVars\":[1,\x7b\x7d]\x7d" =
      .ok (Json.obj [("dependentVar", Json.num 7),
        ("independentVars", Json.arr [Json.num 1, Json.obj []])]) :=
  claim10_validation_only_truthy_and_array
    "\x7b\"dependentVar\":7,\"independentVars\":[1,\x7b\x7d]\x7d"
    (Json.obj [("dependentVar", Json.num 7),
      ("independentVars", Json.arr [Json.num 1, Json.obj []])])
    (Json.num 7) [Json.num 1, Json.obj []] rfl rfl (by decide) rfl

end GeminiService
